import Mathlib

/-!
Verification of the `zl` logging facade (nkmr-jp/zap-lightning).

This file gives a shallow embedding of the package-level configuration
state, the encoder/sink builder, the field enricher, the lifecycle
operations (`Init`, `Sync`, `SyncWhenStop`, `Cleanup`) and the `Logger`
facade, translated from `zl.go` and `zl/options.go`, and proves or
refutes the specification claims about them.

External collaborators (the zap structured-encoding engine, the
lumberjack rotating-file sink, the pretty console renderer) are modelled
only to the extent their documented contracts are needed: the zap core
writes a record to the sinks iff the record's level is at or above the
configured minimum; the JSON encoder drops a built-in field whose
configured key name is the empty string (`zapcore.OmitKey`); zap's
`Logger.Named` joins names with a dot; zap's `Level.UnmarshalText`
accepts the lower- and upper-case level names (including `dpanic` and
`panic`) and the empty string.
-/

namespace Zl

/-- Severity levels of the underlying zapcore engine.
`zl/options.go` aliases these (`DebugLevel = Level(zapcore.DebugLevel)`, ...). -/
inductive Level
  | debug
  | info
  | warn
  | error
  | dpanic
  | panic
  | fatal
deriving DecidableEq, Repr, Fintype

/-- Numeric values of zapcore levels: DebugLevel is -1, InfoLevel is 0, ... -/
def Level.toInt : Level → Int
  | .debug => -1
  | .info => 0
  | .warn => 1
  | .error => 2
  | .dpanic => 3
  | .panic => 4
  | .fatal => 5

/-- zapcore `Level.CapitalString`. -/
def Level.capitalString : Level → String
  | .debug => "DEBUG"
  | .info => "INFO"
  | .warn => "WARN"
  | .error => "ERROR"
  | .dpanic => "DPANIC"
  | .panic => "PANIC"
  | .fatal => "FATAL"

/-- The output-routing modes of `zl/options.go` (`Output int`, iota from 0). -/
inductive Output
  | PrettyOutput
  | ConsoleAndFileOutput
  | ConsoleOutput
  | FileOutput
deriving DecidableEq, Repr, Fintype

/-- The `outputStrings` array of `zl/options.go`. -/
def outputStrings : List String :=
  ["Pretty", "ConsoleAndFile", "Console", "File"]

/-- `Output.String()`: indexes `outputStrings` by the enum value. -/
def Output.toString : Output → String
  | .PrettyOutput => "Pretty"
  | .ConsoleAndFileOutput => "ConsoleAndFile"
  | .ConsoleOutput => "Console"
  | .FileOutput => "File"

/-- The `Key` enum of `zl/options.go`. The richer variant in `zl.go`
refers to two constants whose declarations are not under `src/`:
`LoggerKey` and `PIDKey`. Modelled from the spec: the structured record
carries a `name` field (hierarchical logger name) and a `pid` field, so
`LoggerKey = "name"` and `PIDKey = "pid"`. -/
inductive Key
  | MessageKey
  | LevelKey
  | TimeKey
  | LoggerKey
  | CallerKey
  | FunctionKey
  | StacktraceKey
  | VersionKey
  | HostnameKey
  | PIDKey
deriving DecidableEq, Repr, Fintype

/-- The string value of each `Key` constant. -/
def Key.toString : Key → String
  | .MessageKey => "message"
  | .LevelKey => "level"
  | .TimeKey => "time"
  | .LoggerKey => "name"
  | .CallerKey => "caller"
  | .FunctionKey => "function"
  | .StacktraceKey => "stacktrace"
  | .VersionKey => "version"
  | .HostnameKey => "hostname"
  | .PIDKey => "pid"

/-- A zap field value (only the shapes this package constructs). -/
inductive FieldVal
  | str (s : String)
  | int (n : Int)
deriving DecidableEq, Repr

/-- A zap field: a key/value pair. -/
structure Field where
  key : String
  val : FieldVal
deriving DecidableEq, Repr

/-- The environment the package reads from the operating system:
the hostname (none when `os.Hostname` fails), the raw output of
`git rev-parse --short HEAD` (none when the command fails), and the
process id returned by `os.Getpid` (always nonzero on a real OS). -/
structure Env where
  hostname : Option String
  gitRev : Option String
  osPid : Int
deriving DecidableEq, Repr

/-- Console sink target: `getConsoleOutput` in `zl.go`. -/
inductive ConsoleTarget
  | stdout
  | stderr
deriving DecidableEq, Repr, Fintype

/-- A write syncer as selected by `getSyncers`: either the rotating-file
sink built by `newRotator`, or a console stream. -/
inductive Syncer
  | file
  | console (target : ConsoleTarget)
deriving DecidableEq, Repr

/-- `getConsoleOutput` from `zl.go`: stdout if `isStdOut` was set,
otherwise stderr. -/
def getConsoleOutput (isStdOut : Bool) : ConsoleTarget :=
  if isStdOut then .stdout else .stderr

/-- `getSyncers` from `zl.go`: the ordered sink list for each output mode. -/
def getSyncers (outputType : Output) (isStdOut : Bool) : List Syncer :=
  match outputType with
  | .PrettyOutput => [.file]
  | .FileOutput => [.file]
  | .ConsoleAndFileOutput => [.console (getConsoleOutput isStdOut), .file]
  | .ConsoleOutput => [.console (getConsoleOutput isStdOut)]

/-- The sink table of spec section 4.2, written from the spec's words:
Pretty gets the rotating-file sink only, ConsoleAndFile gets console
then file, Console gets console only, File gets file only; the console
sink is stdout when explicitly selected and stderr otherwise. -/
def specSinkTable (outputType : Output) (isStdOut : Bool) : List Syncer :=
  match outputType with
  | .PrettyOutput => [.file]
  | .ConsoleAndFileOutput => [.console (if isStdOut then .stdout else .stderr), .file]
  | .ConsoleOutput => [.console (if isStdOut then .stdout else .stderr)]
  | .FileOutput => [.file]

/-- `Sync` from `zl.go`: returns `true` when it flushes the zap logger
(and prints pretty traces), `false` when it returns early. The guard is
`if outputType != PrettyOutput && outputType != FileOutput { return }`. -/
def SyncFlushes (outputType : Output) : Bool :=
  if outputType ≠ .PrettyOutput ∧ outputType ≠ .FileOutput then false else true

/-- The guard of `SyncWhenStop` in `zl.go`: the signal handler goroutine
is started only when this holds (same guard as `Sync`). -/
def SyncWhenStopInstalls (outputType : Output) : Bool :=
  if outputType ≠ .PrettyOutput ∧ outputType ≠ .FileOutput then false else true

/-- The signal-number mapping inside `SyncWhenStop`'s handler. -/
def sigCodeOf (s : String) : Int :=
  if s = "interrupt" then 2 else if s = "terminated" then 15 else 0

/-- ASCII uppercase of one character (`strings.ToUpper` on the ASCII
signal names used here). -/
def asciiUpperChar (c : Char) : Char :=
  if 'a' ≤ c ∧ c ≤ 'z' then Char.ofNat (c.toNat - 32) else c

/-- ASCII uppercase of a string: `strings.ToUpper` as applied by
`SyncWhenStop` to the signal name. -/
def asciiUpper (s : String) : String :=
  String.mk (s.data.map asciiUpperChar)

/-- One run of `SyncWhenStop`'s signal handler: the marker record it
logs (message and level), whether the subsequent `Sync` call flushes,
and the `os.Exit` code. -/
structure HandlerRun where
  marker : String
  markerLevel : Level
  flushed : Bool
  exitCode : Int
deriving DecidableEq, Repr

/-- What happens when a signal named `sig` is delivered after
`SyncWhenStop` was called under mode `outputType`: `none` when
`SyncWhenStop` returned without installing a handler. The handler logs
`GOT_SIGNAL_<SIG>` via `Debug`, calls `Sync`, and exits with
`128 + sigCode`. -/
def signalHandlerRun (outputType : Output) (sig : String) : Option HandlerRun :=
  if SyncWhenStopInstalls outputType then
    some ⟨"GOT_SIGNAL_" ++ asciiUpper sig, .debug, SyncFlushes outputType, 128 + sigCodeOf sig⟩
  else none

/-- zapcore's `EncoderConfig` (the fields `newZapLogger` populates). -/
structure EncoderConfig where
  MessageKey : String
  LevelKey : String
  TimeKey : String
  NameKey : String
  CallerKey : String
  FunctionKey : String
  StacktraceKey : String
deriving DecidableEq, Repr

/-- zapcore's `OmitKey`: the empty string; the JSON encoder drops a
built-in field whose configured key name is `OmitKey`. -/
def OmitKey : String := ""

/-- The encoder configuration literal built at the top of `newZapLogger`
in `zl.go`, before `setOmitKeys` runs. -/
def baseEncoderConfig : EncoderConfig :=
  { MessageKey := Key.toString .MessageKey
    LevelKey := Key.toString .LevelKey
    TimeKey := Key.toString .TimeKey
    NameKey := Key.toString .LoggerKey
    CallerKey := Key.toString .CallerKey
    FunctionKey := Key.toString .FunctionKey
    StacktraceKey := Key.toString .StacktraceKey }

/-- One iteration of the `switch` inside `setOmitKeys` of `zl.go`. -/
def setOmitKeysStep (enc : EncoderConfig) (k : Key) : EncoderConfig :=
  match k with
  | .MessageKey => { enc with MessageKey := OmitKey }
  | .LevelKey => { enc with LevelKey := OmitKey }
  | .TimeKey => { enc with TimeKey := OmitKey }
  | .LoggerKey => { enc with NameKey := OmitKey }
  | .CallerKey => { enc with CallerKey := OmitKey }
  | .FunctionKey => { enc with FunctionKey := OmitKey }
  | .StacktraceKey => { enc with StacktraceKey := OmitKey }
  | _ => enc

/-- `setOmitKeys` from `zl.go`: the loop over the configured omitted keys,
applying the switch to the accumulated encoder configuration. -/
def setOmitKeys (omitKeys : List Key) (enc : EncoderConfig) : EncoderConfig :=
  match omitKeys with
  | [] => enc
  | k :: rest => setOmitKeys rest (setOmitKeysStep enc k)

/-- The encoder-config slot a `Key` controls (`none` for the enrichment
keys, which have no slot in the encoder configuration). -/
def encoderSlot (enc : EncoderConfig) : Key → Option String
  | .MessageKey => some enc.MessageKey
  | .LevelKey => some enc.LevelKey
  | .TimeKey => some enc.TimeKey
  | .LoggerKey => some enc.NameKey
  | .CallerKey => some enc.CallerKey
  | .FunctionKey => some enc.FunctionKey
  | .StacktraceKey => some enc.StacktraceKey
  | .VersionKey => none
  | .HostnameKey => none
  | .PIDKey => none

/-- The names of the built-in fields the JSON encoder can attach to a
record under configuration `enc`: the configured slots whose name is
not `OmitKey` (the encoder drops those entirely). This over-approximates
any single record (e.g. `stacktrace` appears only at error severity). -/
def autoFieldNames (enc : EncoderConfig) : List String :=
  [enc.MessageKey, enc.LevelKey, enc.TimeKey, enc.NameKey,
    enc.CallerKey, enc.FunctionKey, enc.StacktraceKey].filter (fun s => s ≠ "")

/-- `strings.TrimRight(s, "\n")`. -/
def trimRightNewline (s : String) : String :=
  s.dropRightWhile (fun c => c = '\n')

/-- `GetVersion` from `zl.go`: the explicit version if set, else the
trimmed output of `git rev-parse --short HEAD`, else `"undefined"`. -/
def GetVersion (version : String) (env : Env) : String :=
  if version ≠ "" then version
  else
    match env.gitRev with
    | some out => trimRightNewline out
    | none => "undefined"

/-- `getHost` from `zl.go`: the hostname, or `none` (a nil pointer in
the source, after logging the error) when resolution fails. -/
def getHost (env : Env) : Option String :=
  env.hostname

/-- `getAdditionalFields` from `zl.go`. Returns `none` where the source
panics: when `HostnameKey` is not omitted and `getHost` returned a nil
pointer, the expression `*getHost()` dereferences nil. On success it
returns the enrichment field list together with the new value of the
package-level `pid` variable (set to `os.Getpid()` unless `PIDKey` is
omitted). -/
def getAdditionalFields (omitKeys : List Key) (version : String) (env : Env)
    (pid : Int) : Option (List Field × Int) :=
  let versionFields : List Field :=
    if Key.VersionKey ∈ omitKeys then []
    else [⟨Key.toString .VersionKey, .str (GetVersion version env)⟩]
  let hostPart : Option (List Field) :=
    if Key.HostnameKey ∈ omitKeys then some []
    else
      match getHost env with
      | none => none
      | some h => some [⟨Key.toString .HostnameKey, .str h⟩]
  match hostPart with
  | none => none
  | some hostFields =>
    if Key.PIDKey ∈ omitKeys then some (versionFields ++ hostFields, pid)
    else some (versionFields ++ hostFields ++ [⟨Key.toString .PIDKey, .int env.osPid⟩], env.osPid)

/-- The package-level mutable state of `zl.go` and `zl/options.go`:
the `var` block of `zl.go` plus the rotation settings declared with the
rotator. Pointer-valued variables are modelled by whether they are set. -/
structure GlobalState where
  onceDone : Bool
  prettySet : Bool
  zapSet : Bool
  outputType : Output
  version : String
  severityLevel : Level
  callerEncoderSet : Bool
  consoleFields : List String
  omitKeys : List Key
  isStdOut : Bool
  separator : String
  fileName : String
  maxSize : Int
  maxBackups : Int
  maxAge : Int
  localTime : Bool
  compress : Bool
  pid : Int
deriving DecidableEq, Repr

/-- `consoleFieldDefault` from `zl.go`. -/
def consoleFieldDefault : String := "console"

/-- The zero/initializer values of the package-level variables: what a
fresh process starts with. The zero value of `zapcore.Level` is
`InfoLevel` and the zero value of `Output` is `PrettyOutput`. -/
def defaultGlobalState : GlobalState :=
  { onceDone := false
    prettySet := false
    zapSet := false
    outputType := .PrettyOutput
    version := ""
    severityLevel := .info
    callerEncoderSet := false
    consoleFields := [consoleFieldDefault]
    omitKeys := []
    isStdOut := false
    separator := " : "
    fileName := ""
    maxSize := 0
    maxBackups := 0
    maxAge := 0
    localTime := false
    compress := false
    pid := 0 }

/-- `Cleanup` from `zl.go`: the field-by-field reset. Note the source
assigns every package variable except `pid`. -/
def Cleanup (st : GlobalState) : GlobalState :=
  { st with
    onceDone := false
    prettySet := false
    zapSet := false
    outputType := .PrettyOutput
    version := ""
    severityLevel := .info
    callerEncoderSet := false
    consoleFields := [consoleFieldDefault]
    omitKeys := []
    isStdOut := false
    separator := " : "
    fileName := ""
    maxSize := 0
    maxBackups := 0
    maxAge := 0
    localTime := false
    compress := false }

/-- The zap core's level filter: a record at `recordLevel` reaches the
sinks iff its level is at or above the configured minimum
(`zapcore.NewCore(..., severityLevel)`). -/
def coreEnabled (recordLevel minLevel : Level) : Bool :=
  decide (minLevel.toInt ≤ recordLevel.toInt)

/-- `Console(s)` attaches the console message under the default console
field key. Modelled from the spec: the pretty-renderer companion file
is not under `src/`; the spec's console allow-list defaults to the one
entry `console`, and `zl.go` declares `consoleFieldDefault = "console"`. -/
def Console (s : String) : Field :=
  ⟨consoleFieldDefault, .str s⟩

/-- The self-describing record emitted by the guarded body of `Init`:
`Debug("INIT_LOGGER", Console(fmt.Sprintf("Severity: %s, Output: %s, FileName: %s%s", ...)))`. -/
structure InitRecord where
  message : String
  level : Level
  fields : List Field
deriving DecidableEq, Repr

/-- The `INIT_LOGGER` record built inside `Init`, as a function of the
state after `newZapLogger` has run (in particular after `pid` was set). -/
def mkInitRecord (st : GlobalState) : InitRecord :=
  { message := "INIT_LOGGER"
    level := .debug
    fields := [Console ("Severity: " ++ st.severityLevel.capitalString ++
      ", Output: " ++ st.outputType.toString ++
      ", FileName: " ++ st.fileName ++
      (if st.pid ≠ 0 then ", PID: " ++ ToString.toString st.pid else ""))] }

/-- The observable outcome of one call to `Init`: the package state
afterwards, how many emission calls the guarded body made, and the
records that actually reached the configured sinks (after the core's
level filter). -/
structure InitResult where
  state : GlobalState
  emissionCalls : Nat
  sinkRecords : List InitRecord
deriving DecidableEq, Repr

/-- `Init` from `zl.go`. `once.Do` skips the body when it already ran.
The body sets the pretty renderer iff the mode is `PrettyOutput`, builds
the zap logger (which runs `getAdditionalFields`, updating `pid`; `none`
models the nil-pointer panic on hostname failure), and emits the
`INIT_LOGGER` record at debug level, which reaches the sinks only if the
core's level filter admits debug. -/
def runInit (st : GlobalState) (env : Env) : Option InitResult :=
  if st.onceDone then some ⟨st, 0, []⟩
  else
    match getAdditionalFields st.omitKeys st.version env st.pid with
    | none => none
    | some (_, newPid) =>
      let st1 := { st with
        onceDone := true
        prettySet := st.outputType = .PrettyOutput
        zapSet := true
        pid := newPid }
      some ⟨st1, 1,
        if coreEnabled .debug st.severityLevel then [mkInitRecord st1] else []⟩

/-- The result of a string-based setter: either the value it stores in
Config State, or the `log.Fatalf` diagnostic that terminates the process. -/
inductive SetterResult (α : Type)
  | ok (a : α)
  | fatal (msg : String)
deriving DecidableEq, Repr

/-- `SetOutputTypeByString` from `zl/options.go`: the empty string
stores the zero value (`PrettyOutput`); otherwise the loop over
`outputStrings` stores the first match; with no match, `log.Fatalf`.
The loop is unrolled here (the four strings are pairwise distinct). -/
def SetOutputTypeByString (s : String) : SetterResult Output :=
  if s = "" then .ok .PrettyOutput
  else if s = "Pretty" then .ok .PrettyOutput
  else if s = "ConsoleAndFile" then .ok .ConsoleAndFileOutput
  else if s = "Console" then .ok .ConsoleOutput
  else if s = "File" then .ok .FileOutput
  else .fatal (s ++ " is invalid type. can use (SimpleConsoleAndFile, ConsoleAndFile, Console, File)")

/-- The single-pass case switch of zapcore `Level.unmarshalText`:
accepts the exact lower- and upper-case names and maps the empty string
to info. Modelled from zap (an external collaborator). -/
def levelUnmarshalExact (s : String) : Option Level :=
  if s = "debug" ∨ s = "DEBUG" then some .debug
  else if s = "info" ∨ s = "INFO" ∨ s = "" then some .info
  else if s = "warn" ∨ s = "WARN" then some .warn
  else if s = "error" ∨ s = "ERROR" then some .error
  else if s = "dpanic" ∨ s = "DPANIC" then some .dpanic
  else if s = "panic" ∨ s = "PANIC" then some .panic
  else if s = "fatal" ∨ s = "FATAL" then some .fatal
  else none

/-- ASCII lowercase of one character (`bytes.ToLower` on ASCII input). -/
def asciiLowerChar (c : Char) : Char :=
  if 'A' ≤ c ∧ c ≤ 'Z' then Char.ofNat (c.toNat + 32) else c

/-- ASCII lowercase of a string, as zapcore applies to the level text. -/
def asciiLower (s : String) : String :=
  String.mk (s.data.map asciiLowerChar)

/-- zapcore `Level.UnmarshalText`: tries the text as given, then
lower-cased. Modelled from zap (an external collaborator). -/
def levelUnmarshalText (s : String) : Option Level :=
  match levelUnmarshalExact s with
  | some l => some l
  | none => levelUnmarshalExact (asciiLower s)

/-- `SetLogLevelByString` from `zl/options.go`: `log.Fatalf` when
`UnmarshalText` rejects the string, otherwise stores the parsed level. -/
def SetLogLevelByString (s : String) : SetterResult Level :=
  match levelUnmarshalText s with
  | none => .fatal (s ++ " is invalid level. can use (DEBUG,INFO,WARN,ERROR,FATAL)")
  | some l => .ok l

/-- The zap logger method an emission call invokes. zap's own contract:
each method records at its namesake level, and `Fatal` additionally
calls `os.Exit(1)` after writing. -/
inductive ZapMethod
  | debug
  | info
  | warn
  | error
  | fatal
deriving DecidableEq, Repr, Fintype

/-- The level at which the structured-encoding engine records an
emission made through the given zap method. -/
def ZapMethod.level : ZapMethod → Level
  | .debug => .debug
  | .info => .info
  | .warn => .warn
  | .error => .error
  | .fatal => .fatal

/-- Whether the zap method terminates the process after writing. -/
def ZapMethod.terminates : ZapMethod → Bool
  | .fatal => true
  | _ => false

/-- The `Logger` struct of `zl/options.go`: a pretty renderer (modelled
by whether it is set and its current console-line label), the wrapped
zap logger (modelled by its accumulated name), and the persistent
fields attached to every emission. -/
structure Logger where
  hasPretty : Bool
  prettyLabel : String
  zapName : String
  fields : List Field
deriving DecidableEq, Repr

/-- One emission call as the facade forwards it: the zap method invoked
on the wrapped engine, the level handed to the pretty renderer (when one
is configured), and the message and final field list passed to both. -/
structure Emission where
  zapMethod : ZapMethod
  prettyLevel : Option Level
  message : String
  fields : List Field
deriving DecidableEq, Repr

/-- `Logger.Debug`: appends the persistent fields to the call-supplied
fields, renders via the pretty logger at debug level, and calls the zap
logger's `Debug`. -/
def Logger.Debug (l : Logger) (message : String) (fields : List Field) : Emission :=
  let fields := fields ++ l.fields
  { zapMethod := .debug
    prettyLevel := if l.hasPretty then some .debug else none
    message := message
    fields := fields }

/-- `Logger.Info`: as `Logger.Debug` at info level, calling zap `Info`. -/
def Logger.Info (l : Logger) (message : String) (fields : List Field) : Emission :=
  let fields := fields ++ l.fields
  { zapMethod := .info
    prettyLevel := if l.hasPretty then some .info else none
    message := message
    fields := fields }

/-- `Logger.Warn`: as `Logger.Debug` at warn level, calling zap `Warn`. -/
def Logger.Warn (l : Logger) (message : String) (fields : List Field) : Emission :=
  let fields := fields ++ l.fields
  { zapMethod := .warn
    prettyLevel := if l.hasPretty then some .warn else none
    message := message
    fields := fields }

/-- `Logger.Error` from `zl/options.go`: hands `ErrorLevel` to the
pretty renderer but invokes the zap logger's `Warn` method:
`l.logger(message, ErrorLevel, fields).Warn(message, fields...)`. -/
def Logger.Error (l : Logger) (message : String) (fields : List Field) : Emission :=
  let fields := fields ++ l.fields
  { zapMethod := .warn
    prettyLevel := if l.hasPretty then some .error else none
    message := message
    fields := fields }

/-- `Logger.Fatal` from `zl/options.go`: hands `FatalLevel` to the
pretty renderer but invokes the zap logger's `Warn` method:
`l.logger(message, FatalLevel, fields).Warn(message, fields...)`. -/
def Logger.Fatal (l : Logger) (message : String) (fields : List Field) : Emission :=
  let fields := fields ++ l.fields
  { zapMethod := .warn
    prettyLevel := if l.hasPretty then some .fatal else none
    message := message
    fields := fields }

/-- zap's `Logger.Named`: the first name is taken as is, later names are
joined with a dot. Modelled from zap (an external collaborator). -/
def zapNamed (old name : String) : String :=
  if old = "" then name else old ++ "." ++ name

/-- A heap of `Logger` values addressed by `Nat`, to model Go pointer
semantics of `*Logger` receivers. -/
def LoggerStore := Nat → Logger

/-- `Logger.Named` from `zl/options.go`, on the heap model: reads the
receiver at address `a`, sets the pretty renderer's line label to
`name ++ " | "` when a pretty renderer is present, replaces the wrapped
zap logger with a named one, writes the result back at the same address,
and returns the receiver's own address (`return l`). -/
def Logger.Named (σ : LoggerStore) (a : Nat) (name : String) : LoggerStore × Nat :=
  let l := σ a
  let l1 := { l with
    prettyLabel := if l.hasPretty then name ++ " | " else l.prettyLabel
    zapName := zapNamed l.zapName name }
  (fun b => if b = a then l1 else σ b, a)

/-- Whether a `Key` names one of the seven encoder-config slots. -/
def Key.isEncoderKey : Key → Bool
  | .VersionKey => false
  | .HostnameKey => false
  | .PIDKey => false
  | _ => true

/-- All field names the structured encoder can attach to a record from
the library side: the built-in encoder fields plus the enrichment fields
and the call-supplied fields. -/
def recordFieldNames (enc : EncoderConfig) (additional callFields : List Field) : List String :=
  autoFieldNames enc ++ additional.map Field.key ++ callFields.map Field.key

/-- A sample logger with a pretty renderer and one persistent field. -/
def demoLogger : Logger :=
  { hasPretty := true, prettyLabel := "", zapName := "", fields := [⟨"req", .str "r1"⟩] }

/-- A sample environment where everything resolves. -/
def env0 : Env :=
  { hostname := some "myhost", gitRev := none, osPid := 42 }

/-- A sample environment where hostname resolution fails. -/
def envNoHost : Env :=
  { hostname := none, gitRev := some "abc1234\n", osPid := 42 }

/-- The default state with the minimum level lowered to debug. -/
def debugState : GlobalState :=
  { defaultGlobalState with severityLevel := Level.debug }

/-- A used-up state: initialized, nonzero pid, non-default settings. -/
def staleState : GlobalState :=
  { defaultGlobalState with
    onceDone := true
    zapSet := true
    pid := 123
    version := "v2.0.0"
    outputType := .ConsoleOutput
    omitKeys := [Key.PIDKey] }

/-- The outcome of `Init` on `debugState` in `env0`. -/
def initOutcome : InitResult :=
  (runInit debugState env0).getD ⟨debugState, 0, []⟩

/-- The enrichment fields produced with `HostnameKey` omitted,
version `"v1"`, in `env0`. -/
def c3fs : List Field :=
  [⟨"version", .str "v1"⟩, ⟨"pid", .int 42⟩]

theorem key_toString_inj : ∀ k1 k2 : Key, Key.toString k1 = Key.toString k2 → k1 = k2 := by
  decide

theorem key_toString_ne_empty : ∀ k : Key, Key.toString k ≠ "" := by
  decide

theorem coreEnabled_debug_iff (m : Level) :
    coreEnabled Level.debug m = true ↔ m = Level.debug := by
  cases m <;> decide

/-- C2: for every output mode the ordered sink list realized by
`getSyncers` is exactly the spec's section 4.2 table, and the console
sink is stdout when explicitly selected, stderr otherwise. -/
theorem C2_sink_list_matches_spec_table (o : Output) (b : Bool) :
    getSyncers o b = specSinkTable o b ∧
    getConsoleOutput true = ConsoleTarget.stdout ∧
    getConsoleOutput false = ConsoleTarget.stderr := by
  refine ⟨?_, rfl, rfl⟩
  cases o <;> cases b <;> rfl

/-- C1 (code bug): `Logger.Error` and `Logger.Fatal` hand the correct
level to the pretty renderer but invoke the zap engine's `Warn` method,
so the structured record is written at warn level, not error or fatal,
and `Logger.Fatal` does not terminate the process. -/
theorem C1_logger_error_fatal_forward_at_warn :
    (demoLogger.Error "E" []).zapMethod = ZapMethod.warn ∧
    (demoLogger.Error "E" []).prettyLevel = some Level.error ∧
    (demoLogger.Fatal "F" []).zapMethod = ZapMethod.warn ∧
    (demoLogger.Fatal "F" []).prettyLevel = some Level.fatal ∧
    ZapMethod.warn.level ≠ Level.error ∧
    ZapMethod.warn.level ≠ Level.fatal ∧
    ZapMethod.warn.terminates = false ∧
    (demoLogger.Error "E" [⟨"user", .str "Alice"⟩]).fields =
      [⟨"user", .str "Alice"⟩] ++ demoLogger.fields := by
  refine ⟨rfl, rfl, rfl, rfl, by decide, by decide, rfl, rfl⟩

/-- C4 (code bug): when hostname resolution fails and `HostnameKey` is
not omitted, `getAdditionalFields` dereferences the nil pointer that
`getHost` returned, so logger construction panics instead of omitting
the field. -/
theorem C4_hostname_failure_panics :
    getAdditionalFields [] "v1.0.0" envNoHost 0 = none ∧
    runInit defaultGlobalState envNoHost = none := by
  exact ⟨rfl, rfl⟩

/-- C6 counterexample: under `ConsoleAndFileOutput` — a mode whose sink
list includes the rotating-file sink — `Sync` returns without flushing. -/
theorem C6_counterexample_consoleandfile_sync_noop :
    SyncFlushes Output.ConsoleAndFileOutput = false := by
  rfl

/-- C6 amended: `Sync` flushes exactly in the `Pretty` and `File` modes;
it is a no-op in both `Console` and `ConsoleAndFile` modes. -/
theorem C6_sync_flushes_iff_pretty_or_file (o : Output) :
    SyncFlushes o = true ↔ (o = Output.PrettyOutput ∨ o = Output.FileOutput) := by
  cases o <;> decide

/-- C7 counterexample: in `ConsoleOutput` mode `SyncWhenStop` returns
without installing a signal handler, so an interrupt does not produce
the marker record, the flush, or exit code 130 through this path. -/
theorem C7_counterexample_console_mode_no_handler :
    signalHandlerRun Output.ConsoleOutput "interrupt" = none := by
  rfl

/-- C7 amended: in the `Pretty` and `File` modes (the only modes in
which `SyncWhenStop` installs its handler), an interrupt leads to the
marker record `GOT_SIGNAL_INTERRUPT` (logged at debug level), one
flush, and exit code 130; a termination signal leads to
`GOT_SIGNAL_TERMINATED`, one flush, and exit code 143. -/
theorem C7_signal_exit_codes_amended (o : Output)
    (h : o = Output.PrettyOutput ∨ o = Output.FileOutput) :
    signalHandlerRun o "interrupt" =
      some ⟨"GOT_SIGNAL_INTERRUPT", Level.debug, true, 130⟩ ∧
    signalHandlerRun o "terminated" =
      some ⟨"GOT_SIGNAL_TERMINATED", Level.debug, true, 143⟩ := by
  rcases h with rfl | rfl <;> exact ⟨by decide, by decide⟩

theorem C7_signal_exit_codes_witness :
    signalHandlerRun Output.PrettyOutput "interrupt" =
      some ⟨"GOT_SIGNAL_INTERRUPT", Level.debug, true, 130⟩ :=
  (C7_signal_exit_codes_amended Output.PrettyOutput (Or.inl rfl)).1

/-- C9 counterexample: `Cleanup` does not reset the package-level `pid`
variable, so residual state survives teardown. -/
theorem C9_counterexample_pid_not_reset :
    (Cleanup staleState).pid = 123 ∧ (Cleanup staleState).pid ≠ 0 := by
  exact ⟨rfl, by decide⟩

/-- C9 amended: `Cleanup` resets every package-level configuration
variable to its built-in default and clears the one-time guard, except
the `pid` variable, which keeps its prior value. -/
theorem C9_cleanup_resets_amended (st : GlobalState) :
    Cleanup st = { defaultGlobalState with pid := st.pid } := by
  rfl

/-- C10: `Logger.Named` mutates the receiver in place on the heap model:
it returns the very address it was called on, rewrites the entry at that
address with the zap handle renamed and the console-line label set, and
leaves the persistent fields (and every other address) unchanged. -/
theorem C10_named_mutates_in_place (σ : LoggerStore) (a : Nat) (name : String) (b : Nat) :
    (Logger.Named σ a name).2 = a ∧
    ((Logger.Named σ a name).1 a).fields = (σ a).fields ∧
    ((Logger.Named σ a name).1 a).zapName = zapNamed (σ a).zapName name ∧
    ((Logger.Named σ a name).1 a).hasPretty = (σ a).hasPretty ∧
    (Logger.Named σ a name).1 b =
      (if b = a then
        { σ a with
          prettyLabel := if (σ a).hasPretty then name ++ " | " else (σ a).prettyLabel
          zapName := zapNamed (σ a).zapName name }
      else σ b) := by
  refine ⟨rfl, ?_, ?_, ?_, ?_⟩ <;> simp [Logger.Named]

/-- C5 counterexample: with the default configuration (minimum level
info) and a healthy environment, `Init` from the uninitialized state
delivers zero records to the sinks, not exactly one: the `INIT_LOGGER`
record is emitted at debug level and the core's level filter drops it. -/
theorem C5_counterexample_info_level_drops_init_record :
    (runInit defaultGlobalState env0).map (fun r => r.sinkRecords.length) = some 0 ∧
    (runInit defaultGlobalState env0).map (fun r => r.sinkRecords.length) ≠ some 1 := by
  exact ⟨rfl, by decide⟩

/-- C5 amended: calling `Init` from the uninitialized state (when
logger construction does not panic) makes exactly one initialization
emission call, self-describing via the `INIT_LOGGER` record; that
record reaches the configured sinks iff the configured minimum level is
debug, and afterwards the one-time guard is set. -/
theorem C5_init_amended (st : GlobalState) (env : Env) (r : InitResult)
    (h0 : st.onceDone = false) (h1 : runInit st env = some r) :
    r.emissionCalls = 1 ∧
    (r.sinkRecords ≠ [] ↔ st.severityLevel = Level.debug) ∧
    r.sinkRecords.length ≤ 1 ∧
    (st.severityLevel = Level.debug → r.sinkRecords = [mkInitRecord r.state]) ∧
    r.state.onceDone = true := by
  rw [runInit, h0] at h1
  simp only [Bool.false_eq_true, if_false] at h1
  cases hadd : getAdditionalFields st.omitKeys st.version env st.pid with
  | none => rw [hadd] at h1; cases h1
  | some fp =>
    rw [hadd] at h1
    obtain ⟨fs, newPid⟩ := fp
    simp only [Option.some.injEq] at h1
    subst h1
    refine ⟨rfl, ?_, ?_, ?_, rfl⟩
    · by_cases hdbg : st.severityLevel = Level.debug
      · simp [hdbg, coreEnabled_debug_iff]
      · have : coreEnabled Level.debug st.severityLevel = false := by
          rcases Bool.eq_false_or_eq_true (coreEnabled Level.debug st.severityLevel) with h | h
          · exact absurd ((coreEnabled_debug_iff st.severityLevel).mp h) hdbg
          · exact h
        simp [this, hdbg]
    · by_cases hdbg : coreEnabled Level.debug st.severityLevel = true <;> simp [hdbg]
    · intro hdbg
      simp [(coreEnabled_debug_iff st.severityLevel).mpr hdbg]

theorem C5_init_amended_witness :
    initOutcome.emissionCalls = 1 ∧
    (initOutcome.sinkRecords ≠ [] ↔ debugState.severityLevel = Level.debug) ∧
    initOutcome.sinkRecords.length ≤ 1 ∧
    (debugState.severityLevel = Level.debug →
      initOutcome.sinkRecords = [mkInitRecord initOutcome.state]) ∧
    initOutcome.state.onceDone = true :=
  C5_init_amended debugState env0 initOutcome rfl (by decide)

/-- C8 counterexample: the empty string matches no output-mode name,
yet `SetOutputTypeByString` does not fail fatally on it: it stores the
zero value `PrettyOutput` and returns. -/
theorem C8_counterexample_empty_string_not_fatal :
    SetOutputTypeByString "" = SetterResult.ok Output.PrettyOutput := by
  rfl

/-- C8 amended: `SetOutputTypeByString` is fatal exactly on nonempty
strings matching no output-mode name (the empty string selects the
default `PrettyOutput`), and each mode name stores its mode;
`SetLogLevelByString` is fatal exactly on strings the level parser
rejects, and stores the parsed level otherwise (the parser also accepts
the empty string as info and the dpanic/panic names, beyond the five
documented level names). -/
theorem C8_setters_amended :
    (∀ s : String, s ≠ "" → s ∉ outputStrings →
      SetOutputTypeByString s = SetterResult.fatal
        (s ++ " is invalid type. can use (SimpleConsoleAndFile, ConsoleAndFile, Console, File)")) ∧
    SetOutputTypeByString "" = SetterResult.ok Output.PrettyOutput ∧
    SetOutputTypeByString "Pretty" = SetterResult.ok Output.PrettyOutput ∧
    SetOutputTypeByString "ConsoleAndFile" = SetterResult.ok Output.ConsoleAndFileOutput ∧
    SetOutputTypeByString "Console" = SetterResult.ok Output.ConsoleOutput ∧
    SetOutputTypeByString "File" = SetterResult.ok Output.FileOutput ∧
    (∀ s : String, levelUnmarshalText s = none →
      SetLogLevelByString s = SetterResult.fatal
        (s ++ " is invalid level. can use (DEBUG,INFO,WARN,ERROR,FATAL)")) ∧
    (∀ (s : String) (l : Level), levelUnmarshalText s = some l →
      SetLogLevelByString s = SetterResult.ok l) := by
  refine ⟨?_, rfl, rfl, rfl, rfl, rfl, ?_, ?_⟩
  · intro s h0 h1
    simp only [outputStrings, List.mem_cons, List.not_mem_nil, or_false, not_or] at h1
    obtain ⟨h2, h3, h4, h5⟩ := h1
    simp [SetOutputTypeByString, h0, h2, h3, h4, h5]
  · intro s h
    simp [SetLogLevelByString, h]
  · intro s l h
    simp [SetLogLevelByString, h]

theorem C8_setters_witness :
    SetOutputTypeByString "Simple" = SetterResult.fatal
      "Simple is invalid type. can use (SimpleConsoleAndFile, ConsoleAndFile, Console, File)" ∧
    SetLogLevelByString "TRACE" = SetterResult.fatal
      "TRACE is invalid level. can use (DEBUG,INFO,WARN,ERROR,FATAL)" ∧
    SetLogLevelByString "Debug" = SetterResult.ok Level.debug :=
  ⟨C8_setters_amended.1 "Simple" (by decide) (by decide),
   C8_setters_amended.2.2.2.2.2.2.1 "TRACE" (by decide),
   C8_setters_amended.2.2.2.2.2.2.2 "Debug" Level.debug (by decide)⟩

theorem encoderSlot_step_or (k kk : Key) (enc : EncoderConfig) :
    encoderSlot (setOmitKeysStep enc kk) k = encoderSlot enc k ∨
    encoderSlot (setOmitKeysStep enc kk) k = some "" := by
  cases kk <;> cases k <;> simp [setOmitKeysStep, encoderSlot, OmitKey]

theorem encoderSlot_none_iff (enc : EncoderConfig) (k : Key) :
    encoderSlot enc k = none ↔ k.isEncoderKey = false := by
  cases k <;> simp [encoderSlot, Key.isEncoderKey]

theorem encoderSlot_step_self (k : Key) (enc : EncoderConfig)
    (hk : k.isEncoderKey = true) :
    encoderSlot (setOmitKeysStep enc k) k = some "" := by
  cases k <;> simp [setOmitKeysStep, encoderSlot, OmitKey, Key.isEncoderKey] at hk ⊢

theorem setOmitKeys_preserve_empty (oks : List Key) (k : Key) (enc : EncoderConfig)
    (h : encoderSlot enc k = some "") :
    encoderSlot (setOmitKeys oks enc) k = some "" := by
  induction oks generalizing enc with
  | nil => exact h
  | cons a l ih =>
    rw [setOmitKeys]
    apply ih
    rcases encoderSlot_step_or k a enc with h2 | h2
    · rw [h2, h]
    · exact h2

theorem setOmitKeys_clears (oks : List Key) (k : Key) (enc : EncoderConfig)
    (hmem : k ∈ oks) (hk : k.isEncoderKey = true) :
    encoderSlot (setOmitKeys oks enc) k = some "" := by
  induction oks generalizing enc with
  | nil => cases hmem
  | cons a l ih =>
    rw [setOmitKeys]
    rcases List.mem_cons.mp hmem with rfl | hmem2
    · exact setOmitKeys_preserve_empty l k _ (encoderSlot_step_self k enc hk)
    · exact ih (setOmitKeysStep enc a) hmem2

theorem setOmitKeys_or_base (oks : List Key) (k : Key) (enc : EncoderConfig) :
    encoderSlot (setOmitKeys oks enc) k = encoderSlot enc k ∨
    encoderSlot (setOmitKeys oks enc) k = some "" := by
  induction oks generalizing enc with
  | nil => left; rfl
  | cons a l ih =>
    rw [setOmitKeys]
    rcases ih (setOmitKeysStep enc a) with h | h
    · rcases encoderSlot_step_or k a enc with h2 | h2
      · left; rw [h, h2]
      · right; rw [h, h2]
    · right; exact h

theorem mem_auto_aux (oks : List Key) (s : String) (kk : Key)
    (hkk : kk.isEncoderKey = true)
    (hslot : encoderSlot (setOmitKeys oks baseEncoderConfig) kk = some s)
    (hne : s ≠ "") :
    kk ∉ oks ∧ s = kk.toString := by
  constructor
  · intro hc
    have h2 := setOmitKeys_clears oks kk baseEncoderConfig hc hkk
    rw [hslot] at h2
    exact hne (Option.some.inj h2)
  · rcases setOmitKeys_or_base oks kk baseEncoderConfig with h2 | h2
    · rw [hslot] at h2
      have hb : encoderSlot baseEncoderConfig kk = some kk.toString := by
        cases kk <;> simp [encoderSlot, baseEncoderConfig, Key.isEncoderKey] at hkk ⊢
      rw [hb] at h2
      exact Option.some.inj h2
    · rw [hslot] at h2
      exact absurd (Option.some.inj h2) hne

theorem mem_autoFieldNames (oks : List Key) (s : String)
    (h : s ∈ autoFieldNames (setOmitKeys oks baseEncoderConfig)) :
    ∃ kk : Key, kk.isEncoderKey = true ∧ kk ∉ oks ∧ s = kk.toString := by
  rw [autoFieldNames, List.mem_filter] at h
  obtain ⟨hin, hne2⟩ := h
  have hne : s ≠ "" := by simpa using hne2
  simp only [List.mem_cons, List.not_mem_nil, or_false] at hin
  rcases hin with h1 | h1 | h1 | h1 | h1 | h1 | h1
  · exact ⟨.MessageKey, rfl, mem_auto_aux oks s .MessageKey rfl (congrArg some h1.symm) hne⟩
  · exact ⟨.LevelKey, rfl, mem_auto_aux oks s .LevelKey rfl (congrArg some h1.symm) hne⟩
  · exact ⟨.TimeKey, rfl, mem_auto_aux oks s .TimeKey rfl (congrArg some h1.symm) hne⟩
  · exact ⟨.LoggerKey, rfl, mem_auto_aux oks s .LoggerKey rfl (congrArg some h1.symm) hne⟩
  · exact ⟨.CallerKey, rfl, mem_auto_aux oks s .CallerKey rfl (congrArg some h1.symm) hne⟩
  · exact ⟨.FunctionKey, rfl, mem_auto_aux oks s .FunctionKey rfl (congrArg some h1.symm) hne⟩
  · exact ⟨.StacktraceKey, rfl, mem_auto_aux oks s .StacktraceKey rfl (congrArg some h1.symm) hne⟩

theorem omitted_not_in_autoFieldNames (oks : List Key) (k : Key) (hmem : k ∈ oks) :
    Key.toString k ∉ autoFieldNames (setOmitKeys oks baseEncoderConfig) := by
  intro hin
  obtain ⟨kk, _, hnot, hs⟩ := mem_autoFieldNames oks _ hin
  exact hnot (key_toString_inj k kk hs ▸ hmem)

theorem additionalFields_keys (oks : List Key) (version : String) (env : Env)
    (pid : Int) (fs : List Field) (p : Int)
    (hok : getAdditionalFields oks version env pid = some (fs, p)) :
    fs.map Field.key =
      (if Key.VersionKey ∈ oks then [] else ["version"]) ++
      (if Key.HostnameKey ∈ oks then [] else ["hostname"]) ++
      (if Key.PIDKey ∈ oks then [] else ["pid"]) := by
  rw [getAdditionalFields] at hok
  by_cases hv : Key.VersionKey ∈ oks <;> by_cases hh : Key.HostnameKey ∈ oks <;>
    by_cases hp : Key.PIDKey ∈ oks <;> cases henv : env.hostname <;>
    simp only [hv, hh, hp, henv, getHost, if_true, if_false, ite_true, ite_false,
      Key.toString, Option.some.injEq, Prod.mk.injEq, reduceCtorEq] at hok ⊢ <;>
    first
      | exact hok.elim
      | (obtain ⟨h1, _⟩ := hok
         subst h1
         simp [Key.toString])

theorem mem_ite_singleton {c : Prop} [Decidable c] {s x : String}
    (h : s ∈ (if c then ([] : List String) else [x])) : ¬c ∧ s = x := by
  by_cases hc : c
  · simp [hc] at h
  · simp [hc] at h
    exact ⟨hc, h⟩

theorem omitted_not_in_additionalFields (oks : List Key) (k : Key) (hmem : k ∈ oks)
    (version : String) (env : Env) (pid : Int) (fs : List Field) (p : Int)
    (hok : getAdditionalFields oks version env pid = some (fs, p)) :
    Key.toString k ∉ fs.map Field.key := by
  have hcon : ∀ kk : Key, kk ∉ oks → Key.toString k ≠ Key.toString kk :=
    fun kk hkk he => hkk (key_toString_inj k kk he ▸ hmem)
  intro hin
  rw [additionalFields_keys oks version env pid fs p hok] at hin
  rcases List.mem_append.mp hin with hin2 | hin3
  · rcases List.mem_append.mp hin2 with hv2 | hh2
    · obtain ⟨hv, he⟩ := mem_ite_singleton hv2
      exact hcon .VersionKey hv he
    · obtain ⟨hh, he⟩ := mem_ite_singleton hh2
      exact hcon .HostnameKey hh he
  · obtain ⟨hp, he⟩ := mem_ite_singleton hin3
    exact hcon .PIDKey hp he

/-- C3: for every key in the configured omission set, the emitted
structured record contains no field with that key's name (provided the
call-supplied fields do not themselves reuse the name): the omitted
encoder-config slots are cleared to `OmitKey` so the encoder drops the
built-in field, and the omitted enrichment keys are never attached by
`getAdditionalFields`. -/
theorem C3_omitted_keys_absent (oks : List Key) (k : Key) (hmem : k ∈ oks)
    (version : String) (env : Env) (pid : Int) (fs : List Field) (p : Int)
    (hok : getAdditionalFields oks version env pid = some (fs, p))
    (callFields : List Field)
    (hcall : Key.toString k ∉ callFields.map Field.key) :
    Key.toString k ∉ recordFieldNames (setOmitKeys oks baseEncoderConfig) fs callFields := by
  intro hin
  rw [recordFieldNames] at hin
  rcases List.mem_append.mp hin with hin2 | hin2
  · rcases List.mem_append.mp hin2 with hin3 | hin3
    · exact omitted_not_in_autoFieldNames oks k hmem hin3
    · exact omitted_not_in_additionalFields oks k hmem version env pid fs p hok hin3
  · exact hcall hin2

theorem C2_sink_list_witness :
    getSyncers Output.ConsoleAndFileOutput true =
      specSinkTable Output.ConsoleAndFileOutput true :=
  (C2_sink_list_matches_spec_table Output.ConsoleAndFileOutput true).1

theorem C6_sync_flushes_witness :
    SyncFlushes Output.FileOutput = true ↔
      (Output.FileOutput = Output.PrettyOutput ∨ Output.FileOutput = Output.FileOutput) :=
  C6_sync_flushes_iff_pretty_or_file Output.FileOutput

theorem C9_cleanup_resets_witness :
    Cleanup staleState = { defaultGlobalState with pid := staleState.pid } :=
  C9_cleanup_resets_amended staleState

theorem C10_named_mutates_witness :
    (Logger.Named (fun _ => demoLogger) 0 "api").2 = 0 :=
  (C10_named_mutates_in_place (fun _ => demoLogger) 0 "api" 1).1

theorem C3_omitted_keys_absent_witness :
    Key.toString Key.HostnameKey ∉
      recordFieldNames (setOmitKeys [Key.HostnameKey] baseEncoderConfig) c3fs
        [⟨"user", FieldVal.str "Alice"⟩] :=
  C3_omitted_keys_absent [Key.HostnameKey] Key.HostnameKey (by decide) "v1" env0 0 c3fs 42
    (by decide) [⟨"user", FieldVal.str "Alice"⟩] (by decide)

end Zl
